import Mathlib

/-!
# Verification of the gitpro code-intelligence pipeline

Shallow embedding of the quantitative core of the repository:
`backend/services/kpi_calculator.py`, `backend/services/anomaly_detector.py`
and the dispatch layer of `backend/services/nlp_analyzer.py`, together with
the batch assembly in `backend/routes/repos.py`.

Modelling conventions:
* Python numbers (ints and floats) are embedded as `ℚ`; float literals such
  as `0.4` are taken at their decimal value, which is the intended value of
  the source arithmetic.
* Python dictionaries with optional keys become structures with `Option`
  fields; `d.get(k, 0)` becomes `Option.getD · 0`.
* Python truthiness is modelled explicitly: an absent-or-empty dict is
  `none`, an absent-or-empty string fails the string-truthiness test, an
  absent-or-empty list fails the list-truthiness test.
* The external libraries (sklearn's `StandardScaler`/`IsolationForest`,
  radon, nltk) are out of scope per the specification; they enter the
  embedding as universally quantified function parameters, and everything
  the repository's own code does around them is embedded faithfully.
-/

/-- Python `round(q)`: bankers rounding (round-half-to-even), the behaviour
of `round` on floats used throughout `kpi_calculator.py`. -/
def pyRound (q : ℚ) : ℤ :=
  if q - ⌊q⌋ = 1/2 then (if ⌊q⌋ % 2 = 0 then ⌊q⌋ else ⌊q⌋ + 1) else round q

/-- Python `round(q, n)`: round to `n` decimal places. -/
def pyRoundTo (n : ℕ) (q : ℚ) : ℚ :=
  (pyRound (q * 10 ^ n) : ℚ) / 10 ^ n

/-- Python `int(q)`: truncation toward zero. -/
def pyInt (q : ℚ) : ℤ :=
  if 0 ≤ q then ⌊q⌋ else ⌈q⌉

/-- Mean of a list of rationals, `np.mean`; callers in the source guard
against the empty list themselves. -/
def listMean (l : List ℚ) : ℚ := l.sum / l.length

/-- The `metrics` sub-dictionary of one analysis record as filled in by
`nlp_analyzer.analyze_code_file`.  Every key may be absent (for unsupported
extensions or non-Python files), hence `Option` fields. -/
structure Metrics where
  total_lines : Option ℚ := none
  non_empty_lines : Option ℚ := none
  comment_lines : Option ℚ := none
  comment_ratio : Option ℚ := none
  avg_complexity : Option ℚ := none
  max_complexity : Option ℚ := none
  maintainability_index : Option ℚ := none
  halstead_difficulty : Option ℚ := none
  halstead_effort : Option ℚ := none
deriving DecidableEq

/-- The `naming` sub-dictionary (only `consistency_score` is read by the
pipeline). -/
structure Naming where
  consistency_score : Option ℚ := none
deriving DecidableEq

/-- The `semantic` sub-dictionary. -/
structure Semantic where
  vocabulary_richness : Option ℚ := none
  comment_meaningfulness : Option ℚ := none
deriving DecidableEq

/-- One per-file analysis record (the dictionaries produced by
`analyze_code_file` and consumed by the detector and the KPI aggregator).
`naming = none` / `semantic = none` model a Python-falsy (absent or empty)
sub-dictionary, matching the `if a.get('naming')` style truthiness tests in
the source. -/
structure Analysis where
  filename : Option String := none
  metrics : Metrics := {}
  smells : List String := []
  naming : Option Naming := none
  semantic : Option Semantic := none
deriving DecidableEq

/-- `AnomalyDetector.feature_names`, verbatim from the source. -/
def feature_names : List String :=
  ["total_lines", "non_empty_lines", "comment_lines", "comment_ratio",
   "avg_complexity", "max_complexity", "maintainability_index",
   "halstead_difficulty", "smell_count", "naming_consistency",
   "vocabulary_richness", "comment_meaningfulness"]

/-- The per-file feature row built inside
`AnomalyDetector.extract_features`: twelve `metrics.get(..., 0)` style reads
in the source's order. -/
def fileFeatures (analysis : Analysis) : List ℚ :=
  [analysis.metrics.total_lines.getD 0,
   analysis.metrics.non_empty_lines.getD 0,
   analysis.metrics.comment_lines.getD 0,
   analysis.metrics.comment_ratio.getD 0,
   analysis.metrics.avg_complexity.getD 0,
   analysis.metrics.max_complexity.getD 0,
   analysis.metrics.maintainability_index.getD 0,
   analysis.metrics.halstead_difficulty.getD 0,
   (analysis.smells.length : ℚ),
   (analysis.naming.bind (fun n => n.consistency_score)).getD 0,
   (analysis.semantic.bind (fun s => s.vocabulary_richness)).getD 0,
   (analysis.semantic.bind (fun s => s.comment_meaningfulness)).getD 0]

/-- `AnomalyDetector.extract_features`: one feature row per record. -/
def extract_features (nlp_analyses : List Analysis) : List (List ℚ) :=
  nlp_analyses.map fileFeatures

/-- The 12 feature names in the order given by the specification (camelCase
spelling of §4.2). -/
def specFeatureOrder : List String :=
  ["totalLines", "nonEmptyLines", "commentLines", "commentRatio",
   "avgComplexity", "maxComplexity", "maintainabilityIndex",
   "halsteadDifficulty", "smellCount", "namingConsistency",
   "vocabularyRichness", "commentMeaningfulness"]

/-- Spec-side field selector (§4.2): the named numeric field of a
FileMetrics record, with every missing numeric field coerced to 0. -/
def specFeature (analysis : Analysis) (name : String) : ℚ :=
  if name = "totalLines" then analysis.metrics.total_lines.getD 0
  else if name = "nonEmptyLines" then analysis.metrics.non_empty_lines.getD 0
  else if name = "commentLines" then analysis.metrics.comment_lines.getD 0
  else if name = "commentRatio" then analysis.metrics.comment_ratio.getD 0
  else if name = "avgComplexity" then analysis.metrics.avg_complexity.getD 0
  else if name = "maxComplexity" then analysis.metrics.max_complexity.getD 0
  else if name = "maintainabilityIndex" then analysis.metrics.maintainability_index.getD 0
  else if name = "halsteadDifficulty" then analysis.metrics.halstead_difficulty.getD 0
  else if name = "smellCount" then (analysis.smells.length : ℚ)
  else if name = "namingConsistency" then (analysis.naming.bind (fun n => n.consistency_score)).getD 0
  else if name = "vocabularyRichness" then (analysis.semantic.bind (fun s => s.vocabulary_richness)).getD 0
  else if name = "commentMeaningfulness" then (analysis.semantic.bind (fun s => s.comment_meaningfulness)).getD 0
  else 0

/-- Spec-side feature vector (§4.2): the 12 named fields in the fixed
order. -/
def specVector (analysis : Analysis) : List ℚ :=
  specFeatureOrder.map (specFeature analysis)

/-! ## KPI aggregator (`backend/services/kpi_calculator.py`)

Source names carry a leading underscore (`_calculate_quality_kpis`, ...);
the Lean definitions drop that single underscore. -/

/-- One entry of the `commits` list handed to the KPI aggregator.  The
source reads the nested GitHub payload
`commit.get('commit', \x7b\x7d).get('author', \x7b\x7d).get('name')`;
every level may be absent, hence the nested `Option`s. -/
structure CommitAuthor where
  name : Option String := none
deriving DecidableEq

structure CommitInfo where
  author : Option CommitAuthor := none
deriving DecidableEq

structure Commit where
  commit : Option CommitInfo := none
deriving DecidableEq

/-- The author-name read `commit.get('commit', ...).get('author', ...).get('name')`. -/
def commitAuthorName (c : Commit) : Option String :=
  (c.commit.bind (fun ci => ci.author)).bind (fun a => a.name)

/-- One entry of the `prs` list; the aggregator only reads `merged_at`
(`none` models both an absent key and JSON null). -/
structure PullRequest where
  merged_at : Option String := none
deriving DecidableEq

structure QualityKPIs where
  quality_score : ℚ
  avg_complexity : ℚ
  code_smell_density : ℚ
  documentation_coverage : ℚ
  total_code_smells : ℕ
  total_lines_of_code : ℚ
deriving DecidableEq

structure MaintainabilityKPIs where
  maintainability_index : ℚ
  naming_consistency : ℚ
  vocabulary_richness : ℚ
  technical_debt_hours : ℕ
  technical_debt_days : ℚ
deriving DecidableEq

structure ProductivityKPIs where
  productivity_score : ℚ
  commit_frequency : ℕ
  pr_merge_rate : ℚ
  avg_pr_size : ℚ
  active_contributors : ℕ
deriving DecidableEq

structure SecurityKPIs where
  security_issue_count : ℕ
  risk_score : ℕ
  high_complexity_files : ℕ
deriving DecidableEq

/-- The `summary` dictionary.  `timestamp` is `none` exactly in the empty
branch (`_empty_kpis` sets no timestamp); in the non-empty branch the
caller-visible wall-clock string is threaded in as a parameter since
`datetime.utcnow()` is I/O. -/
structure Summary where
  overall_health_score : ℚ
  grade : String
  analyzed_files : ℕ
  timestamp : Option String := none
deriving DecidableEq

/-- The full KPI report.  A category that the source leaves as the empty
dictionary `\x7b\x7d` (empty-batch branch) is `none`. -/
structure KPIReport where
  quality : Option QualityKPIs
  maintainability : Option MaintainabilityKPIs
  productivity : Option ProductivityKPIs
  security : Option SecurityKPIs
  summary : Summary
deriving DecidableEq

/-- `_calculate_quality_score(avg_complexity, comment_ratio, smell_density)`,
lines 161-180 of `kpi_calculator.py`, embedded verbatim (including the
double clamping of the complexity and smell sub-scores and the absence of a
lower clamp on the documentation sub-score). -/
def calculate_quality_score (avg_complexity comment_ratio smell_density : ℚ) : ℚ :=
  let complexity_score : ℚ :=
    if avg_complexity > 5 then max 0 (100 - (avg_complexity - 5) * 10) else 100
  let complexity_score := max 0 (min 100 complexity_score)
  let doc_score := min 100 (comment_ratio * 300)
  let smell_score := max 0 (100 - smell_density * 5)
  let smell_score := max 0 (min 100 smell_score)
  complexity_score * 0.4 + doc_score * 0.3 + smell_score * 0.3

/-- `_calculate_quality_kpis(nlp_analyses)`. -/
def calculate_quality_kpis (nlp_analyses : List Analysis) : QualityKPIs :=
  let total_lines : ℚ := (nlp_analyses.map (fun a => a.metrics.total_lines.getD 0)).sum
  let total_smells : ℕ := (nlp_analyses.map (fun a => a.smells.length)).sum
  let complexities := (nlp_analyses.filter
      (fun a => a.metrics.avg_complexity.isSome)).map
      (fun a => a.metrics.avg_complexity.getD 0)
  let avg_complexity := if complexities = [] then 0 else listMean complexities
  let comment_ratios := nlp_analyses.map (fun a => a.metrics.comment_ratio.getD 0)
  let avg_comment_ratio := if comment_ratios = [] then 0 else listMean comment_ratios
  let smell_density := ((total_smells : ℚ) / max total_lines 1) * 1000
  let quality_score := calculate_quality_score avg_complexity avg_comment_ratio smell_density
  { quality_score := pyRoundTo 1 quality_score
    avg_complexity := pyRoundTo 2 avg_complexity
    code_smell_density := pyRoundTo 2 smell_density
    documentation_coverage := pyRoundTo 1 (avg_comment_ratio * 100)
    total_code_smells := total_smells
    total_lines_of_code := total_lines }

/-- `_calculate_maintainability_kpis(nlp_analyses)`. -/
def calculate_maintainability_kpis (nlp_analyses : List Analysis) : MaintainabilityKPIs :=
  let mi_scores := (nlp_analyses.filter
      (fun a => a.metrics.maintainability_index.isSome)).map
      (fun a => a.metrics.maintainability_index.getD 0)
  let avg_mi := if mi_scores = [] then 0 else listMean mi_scores
  let naming_scores := nlp_analyses.filterMap
      (fun a => a.naming.map (fun n => n.consistency_score.getD 0))
  let avg_naming_consistency := if naming_scores = [] then 0 else listMean naming_scores
  let vocab_scores := nlp_analyses.filterMap
      (fun a => a.semantic.map (fun s => s.vocabulary_richness.getD 0))
  let avg_vocab_richness := if vocab_scores = [] then 0 else listMean vocab_scores
  let total_smells := (nlp_analyses.map (fun a => a.smells.length)).sum
  let high_complexity_files :=
    nlp_analyses.countP (fun a => a.metrics.max_complexity.getD 0 > 10)
  let technical_debt_hours := total_smells * 2 + high_complexity_files * 8
  { maintainability_index := pyRoundTo 1 avg_mi
    naming_consistency := pyRoundTo 1 (avg_naming_consistency * 100)
    vocabulary_richness := pyRoundTo 1 (avg_vocab_richness * 100)
    technical_debt_hours := technical_debt_hours
    technical_debt_days := pyRoundTo 1 ((technical_debt_hours : ℚ) / 8) }

/-- `_calculate_productivity_kpis(commits, prs)`.  `none` models a Python
`None` argument; the guard `if not commits and not prs` is Python list
truthiness, satisfied by both `None` and `[]`. -/
def calculate_productivity_kpis (commits : Option (List Commit))
    (prs : Option (List PullRequest)) : ProductivityKPIs :=
  if (commits.getD []).isEmpty ∧ (prs.getD []).isEmpty then
    { productivity_score := 0, commit_frequency := 0, pr_merge_rate := 0
      avg_pr_size := 0, active_contributors := 0 }
  else
    let commit_count := (commits.getD []).length
    let pr_count := (prs.getD []).length
    let merged_prs := (prs.getD []).countP
      (fun pr => !(pr.merged_at.getD "").isEmpty)
    let pr_merge_rate : ℚ :=
      if pr_count > 0 then ((merged_prs : ℚ) / max (pr_count : ℚ) 1) * 100 else 0
    let contributors :=
      (((commits.getD []).filterMap commitAuthorName).filter (fun n => n ≠ "")).dedup
    let commit_score : ℚ := min 100 ((commit_count : ℚ) / 10 * 100)
    let pr_score : ℚ := if pr_count > 0 then pr_merge_rate else 50
    let contributor_score : ℚ := min 100 ((contributors.length : ℚ) / 5 * 100)
    let productivity_score := commit_score * 0.4 + pr_score * 0.3 + contributor_score * 0.3
    { productivity_score := pyRoundTo 1 productivity_score
      commit_frequency := commit_count
      pr_merge_rate := pyRoundTo 1 pr_merge_rate
      avg_pr_size := 0
      active_contributors := contributors.length }

/-- `security_keywords` from `_calculate_security_kpis`. -/
def security_keywords : List String :=
  ["password", "secret", "token", "api_key", "private_key"]

/-- ASCII lowering of one character (`str.lower` restricted to ASCII, which
covers every smell string the analyzer generates). -/
def lowerChar (c : Char) : Char :=
  if 'A' ≤ c ∧ c ≤ 'Z' then Char.ofNat (c.toNat + 32) else c

/-- `smell.lower()` for the ASCII smell strings. -/
def pyLower (s : String) : String := ⟨s.data.map lowerChar⟩

/-- `any(keyword in smell.lower() for keyword in security_keywords)`. -/
def smellHasSecurityKeyword (smell : String) : Bool :=
  security_keywords.any (fun kw => decide (kw.data <:+: (pyLower smell).data))

/-- `_calculate_security_kpis(nlp_analyses)`, with the counting loop
embedded as the same nested fold the source performs. -/
def calculate_security_kpis (nlp_analyses : List Analysis) : SecurityKPIs :=
  let security_issues := nlp_analyses.foldl
    (fun acc a => a.smells.foldl
      (fun acc2 smell => if smellHasSecurityKeyword smell then acc2 + 1 else acc2) acc) 0
  let total_smells := (nlp_analyses.map (fun a => a.smells.length)).sum
  let high_complexity_count :=
    nlp_analyses.countP (fun a => a.metrics.max_complexity.getD 0 > 15)
  { security_issue_count := security_issues
    risk_score := min 100 (security_issues * 10 + high_complexity_count * 5 + total_smells * 2)
    high_complexity_files := high_complexity_count }

/-- `_calculate_overall_score(kpis)`: reads `quality_score` and
`maintainability_index` off the already-computed category records. -/
def calculate_overall_score (quality : QualityKPIs) (maintainability : MaintainabilityKPIs) : ℚ :=
  pyRoundTo 1 (quality.quality_score * 0.6 + maintainability.maintainability_index * 0.4)

/-- `_score_to_grade(score)`. -/
def score_to_grade (score : ℚ) : String :=
  if score ≥ 90 then "A"
  else if score ≥ 80 then "B"
  else if score ≥ 70 then "C"
  else if score ≥ 60 then "D"
  else "F"

/-- `_empty_kpis()`: the all-empty report (note: no timestamp key). -/
def empty_kpis : KPIReport :=
  { quality := none, maintainability := none, productivity := none, security := none
    summary := { overall_health_score := 0, grade := "N/A", analyzed_files := 0
                 timestamp := none } }

/-- `calculate_kpis(nlp_analyses, repo_data, commits, prs)`.  `repo_data`
is accepted and never read, exactly as in the source; `now` is the
`datetime.utcnow().isoformat()` string. -/
def calculate_kpis {ρ : Type} (nlp_analyses : List Analysis) (_repo_data : ρ)
    (commits : Option (List Commit)) (prs : Option (List PullRequest))
    (now : String) : KPIReport :=
  if nlp_analyses.isEmpty then empty_kpis
  else
    let quality := calculate_quality_kpis nlp_analyses
    let maintainability := calculate_maintainability_kpis nlp_analyses
    let productivity := calculate_productivity_kpis commits prs
    let security := calculate_security_kpis nlp_analyses
    let overall := calculate_overall_score quality maintainability
    { quality := some quality
      maintainability := some maintainability
      productivity := some productivity
      security := some security
      summary := { overall_health_score := overall
                   grade := score_to_grade overall
                   analyzed_files := nlp_analyses.length
                   timestamp := some now } }

/-! ## Anomaly detector (`backend/services/anomaly_detector.py`)

The sklearn objects (`StandardScaler.fit_transform`,
`IsolationForest.fit_predict`, `IsolationForest.score_samples`) are the
external model; they appear as explicit function parameters.  Everything
else — the batch-size guard, the report construction, the z-score
attribution and the final sort — is the repository's own code and is
embedded from it.

`np.std` produces a real square root, which ℚ lacks; since the source only
ever uses the standard deviation through the two comparisons `std > 0` and
`abs((value - mean) / std) > 2`, those are embedded in the equivalent
squared form `0 < var` and `(value - mean)^2 > 4 * var`. -/

/-- An anomaly report as assembled by `_create_anomaly_report` (the
`metrics` snapshot sub-dictionary is inlined as `m_` fields). -/
structure AnomalyReport where
  file : String
  score : ℤ
  types : List String
  description : String
  m_complexity : ℚ
  m_lines : ℤ
  m_comment_ratio : ℚ
  m_smells : ℤ
deriving DecidableEq

/-- Column count of the feature matrix (`np` takes it from the row shape). -/
def colCount (rows : List (List ℚ)) : ℕ := (rows.headD []).length

/-- `np.mean(all_features, axis=0)`. -/
def colMeans (rows : List (List ℚ)) : List ℚ :=
  (List.range (colCount rows)).map
    (fun j => (rows.map (fun r => r.getD j 0)).sum / rows.length)

/-- Column-wise population variance; `np.std(all_features, axis=0)` is its
square root, used only through the squared comparisons described above. -/
def colVars (rows : List (List ℚ)) : List ℚ :=
  (List.range (colCount rows)).map
    (fun j =>
      let m := (rows.map (fun r => r.getD j 0)).sum / rows.length
      (rows.map (fun r => (r.getD j 0 - m) ^ 2)).sum / rows.length)

/-- The threshold test of the attribution loop: `std > 0` and
`z_score = abs((value - mean) / std) > 2`, in squared form. -/
def zCrossing (value mean var : ℚ) : Prop :=
  0 < var ∧ (value - mean) ^ 2 > 4 * var

instance (value mean var : ℚ) : Decidable (zCrossing value mean var) :=
  inferInstanceAs (Decidable (_ ∧ _))

/-- Reason strings of the attribution loop.  The f-string number formatting
of the source is abbreviated to printing the exact rational; no claim
depends on the numeric rendering inside these strings. -/
def highComplexityReason (value mean : ℚ) : String :=
  "High complexity (" ++ toString value ++ " vs avg " ++ toString mean ++ ")"

def largeFileReason (value mean : ℚ) : String :=
  "Large file (" ++ toString value ++ " lines vs avg " ++ toString mean ++ ")"

def lowDocReason (value mean : ℚ) : String :=
  "Low documentation (" ++ toString value ++ " vs avg " ++ toString mean ++ ")"

def inconsistentNamingReason (value mean : ℚ) : String :=
  "Inconsistent naming (score " ++ toString value ++ " vs avg " ++ toString mean ++ ")"

def multipleSmellsReason (value : ℚ) : String :=
  "Multiple code smells (" ++ toString value ++ " detected)"

/-- One iteration of the attribution loop of `_create_anomaly_report`:
state is the pair `(anomaly_types, reasons)`, the entry is
`(feature_name, value, mean, variance)`. -/
def tagStep (st : List String × List String) (e : String × ℚ × ℚ × ℚ) :
    List String × List String :=
  let (name, value, mean, var) := e
  if zCrossing value mean var then
    if name = "avg_complexity" ∧ value > mean then
      (st.1 ++ ["complexity"], st.2 ++ [highComplexityReason value mean])
    else if name = "total_lines" ∧ value > mean then
      (st.1 ++ ["size"], st.2 ++ [largeFileReason value mean])
    else if name = "comment_ratio" ∧ value < mean then
      (st.1 ++ ["documentation"], st.2 ++ [lowDocReason value mean])
    else if name = "naming_consistency" ∧ value < mean then
      (st.1 ++ ["naming"], st.2 ++ [inconsistentNamingReason value mean])
    else if name = "smell_count" ∧ value > mean then
      (st.1 ++ ["code_smells"], st.2 ++ [multipleSmellsReason value])
    else st
  else st

/-- The contribution of a single loop entry, starting from empty state. -/
def tagEmit (e : String × ℚ × ℚ × ℚ) : List String × List String :=
  tagStep ([], []) e

/-- The 4-way `zip(self.feature_names, file_features, feature_means,
feature_stds)` of the attribution loop. -/
def attributionEntries (file_features : List ℚ) (all_features : List (List ℚ)) :
    List (String × ℚ × ℚ × ℚ) :=
  feature_names.zip (file_features.zip ((colMeans all_features).zip (colVars all_features)))

/-- `_create_anomaly_report(analysis, file_features, anomaly_score,
all_features)`. -/
def create_anomaly_report (analysis : Analysis) (file_features : List ℚ)
    (anomaly_score : ℚ) (all_features : List (List ℚ)) : AnomalyReport :=
  let filename := analysis.filename.getD "unknown"
  let normalized_score := pyInt ((1 - (anomaly_score + 0.5)) * 100)
  let normalized_score := max 0 (min 100 normalized_score)
  let st := (attributionEntries file_features all_features).foldl tagStep ([], [])
  let anomaly_types := st.1
  let reasons := st.2
  { file := filename
    score := normalized_score
    types := if anomaly_types = [] then ["general"] else anomaly_types
    description := if reasons = [] then "Statistical outlier in code metrics"
                   else String.intercalate "; " reasons
    m_complexity := file_features.getD 4 0
    m_lines := pyInt (file_features.getD 0 0)
    m_comment_ratio := file_features.getD 3 0
    m_smells := pyInt (file_features.getD 8 0) }

/-- The sort key of `anomalies.sort(key=lambda x: x['score'], reverse=True)`:
descending by normalized score. -/
def scoreOrder (a b : AnomalyReport) : Prop := b.score ≤ a.score

instance : DecidableRel scoreOrder := fun a b =>
  inferInstanceAs (Decidable (b.score ≤ a.score))

instance : IsTotal AnomalyReport scoreOrder :=
  ⟨fun a b => (le_total b.score a.score).imp id id⟩

instance : IsTrans AnomalyReport scoreOrder :=
  ⟨fun _ _ _ hab hbc => le_trans hbc hab⟩

/-- `AnomalyDetector.detect_anomalies(nlp_analyses)`, with the sklearn
scaler and forest abstracted as `scale`, `fitPredict` and `scoreSamples`
(`np.nan_to_num` is the identity on ℚ, which has no NaN).  A stable
insertion sort models Python's stable `list.sort` with `reverse=True`. -/
def detect_anomalies (scale : List (List ℚ) → List (List ℚ))
    (fitPredict : List (List ℚ) → List ℤ)
    (scoreSamples : List (List ℚ) → List ℚ)
    (nlp_analyses : List Analysis) : List AnomalyReport :=
  if nlp_analyses.length < 3 then []
  else
    let features := extract_features nlp_analyses
    let features_scaled := scale features
    let predictions := fitPredict features_scaled
    let anomaly_scores := scoreSamples features_scaled
    let rows := predictions.zip (anomaly_scores.zip nlp_analyses)
    let anomalies := rows.enum.filterMap
      (fun pe =>
        if pe.2.1 = -1 then
          some (create_anomaly_report pe.2.2.2 (features.getD pe.1 []) pe.2.2.1 features)
        else none)
    anomalies.insertionSort scoreOrder

/-- Spec-side categorisation (§4.4): the semantic categories of exactly the
dimensions whose batch z-score crosses the threshold under the directional
rules, listed in the dimension order the attribution loop visits them
(totalLines, commentRatio, avgComplexity, smellCount, namingConsistency). -/
def specCategories (file_features : List ℚ) (means vars : List ℚ) : List String :=
  let v := fun j => file_features.getD j 0
  let m := fun j => means.getD j 0
  let s := fun j => vars.getD j 0
  (if zCrossing (v 0) (m 0) (s 0) ∧ v 0 > m 0 then ["size"] else []) ++
  (if zCrossing (v 3) (m 3) (s 3) ∧ v 3 < m 3 then ["documentation"] else []) ++
  (if zCrossing (v 4) (m 4) (s 4) ∧ v 4 > m 4 then ["complexity"] else []) ++
  (if zCrossing (v 8) (m 8) (s 8) ∧ v 8 > m 8 then ["code_smells"] else []) ++
  (if zCrossing (v 9) (m 9) (s 9) ∧ v 9 < m 9 then ["naming"] else [])

/-! ## Metrics extractor dispatch (`backend/services/nlp_analyzer.py`)

`analyze_code_file` builds a fresh result record, computes the file
extension, and for an extension outside `code_extensions` returns the
near-empty record before any analysis library is touched.  The supported
branch (radon/nltk work) is abstracted as a function parameter. -/

/-- `code_extensions`, verbatim from the source. -/
def code_extensions : List String :=
  ["py", "js", "ts", "jsx", "tsx", "go", "java", "rs", "cpp", "c", "cs"]

/-- Python `str.split(sep)` for a one-character separator, on the
character list of the string. -/
def splitOnChar (c : Char) : List Char → List (List Char)
  | [] => [[]]
  | x :: xs =>
    match splitOnChar c xs with
    | [] => [[x]]
    | h :: t => if x = c then [] :: h :: t else (x :: h) :: t

/-- `filename.split('.')[-1] if '.' in filename else ''`. -/
def fileExt (filename : String) : String :=
  if '.' ∈ filename.data then ⟨(splitOnChar '.' filename.data).getLastD []⟩ else ""

/-- The freshly initialised result record of `analyze_code_file` (empty
metrics, no smells, empty naming dict — Python-falsy, hence `none`). -/
def emptyAnalysis (filename : String) : Analysis :=
  { filename := some filename, metrics := {}, smells := [], naming := none
    semantic := none }

/-- `analyze_code_file(filename, content, fast_mode)` around its extension
dispatch: `analyzeSupported` stands for the body that runs for supported
extensions. -/
def analyze_code_file (analyzeSupported : String → String → Analysis)
    (filename content : String) : Analysis :=
  if fileExt filename ∉ code_extensions then emptyAnalysis filename
  else analyzeSupported filename content

/-- The batch assembly loop of `backend/routes/repos.py`: every file's
record is appended to `nlp_analyses` unconditionally. -/
def buildBatch (analyzeSupported : String → String → Analysis)
    (files : List (String × String)) : List Analysis :=
  files.map (fun f => analyze_code_file analyzeSupported f.1 f.2)


/-- Clamp to [0,100] (spec §4.5 wording for the quality sub-scores). -/
def clamp0_100 (q : ℚ) : ℚ := max 0 (min 100 q)

/-- Spec-side complexity sub-score: 100 when avgComplexity ≤ 5 else
100 − (avgComplexity−5)×10, clamped to [0,100]. -/
def specComplexitySubScore (avgComplexity : ℚ) : ℚ :=
  clamp0_100 (if avgComplexity ≤ 5 then 100 else 100 - (avgComplexity - 5) * 10)

/-- Spec-side documentation sub-score: min(100, commentRatio×300), clamped
to [0,100]. -/
def specDocSubScore (commentRatio : ℚ) : ℚ :=
  clamp0_100 (min 100 (commentRatio * 300))

/-- Spec-side smell sub-score: 100 − smellDensity×5, clamped to [0,100]. -/
def specSmellSubScore (smellDensity : ℚ) : ℚ :=
  clamp0_100 (100 - smellDensity * 5)

/-! ## Helper lemmas -/

theorem fileFeatures_eq_specVector (a : Analysis) : fileFeatures a = specVector a := by
  simp [fileFeatures, specVector, specFeatureOrder, specFeature]

theorem filterMap_const_some {α β : Type} (f : α → Option β) (l : List α) (b : β)
    (h : ∀ x ∈ l, f x = some b) : l.filterMap f = List.replicate l.length b := by
  induction l with
  | nil => simp
  | cons x xs ih =>
    simp only [List.filterMap_cons, h x (List.mem_cons_self x xs), List.length_cons,
      List.replicate_succ]
    rw [ih (fun y hy => h y (List.mem_cons_of_mem x hy))]

theorem dedup_replicate_of_ne_zero {α : Type} [DecidableEq α] (a : α) :
    ∀ n : ℕ, n ≠ 0 → (List.replicate n a).dedup = [a] := by
  intro n
  induction n with
  | zero => intro h; exact absurd rfl h
  | succ m ih =>
    intro _
    cases Nat.eq_zero_or_pos m with
    | inl hm => subst hm; simp
    | inr hm =>
      rw [List.replicate_succ, List.dedup_cons_of_mem
        (by simp [List.mem_replicate]; omega), ih (by omega)]

/-! ## Claim theorems -/

/-- C2: For every FileMetrics record, the feature-vector builder produces a
vector of exactly 12 numeric elements in the fixed order [totalLines,
nonEmptyLines, commentLines, commentRatio, avgComplexity, maxComplexity,
maintainabilityIndex, halsteadDifficulty, smellCount, namingConsistency,
vocabularyRichness, commentMeaningfulness], with every missing numeric
field coerced to 0. -/
theorem extract_features_spec (nlp_analyses : List Analysis) :
    (∀ row ∈ extract_features nlp_analyses, row.length = 12) ∧
    extract_features nlp_analyses = nlp_analyses.map specVector := by
  constructor
  · intro row hrow
    rcases List.mem_map.mp hrow with ⟨a, _, rfl⟩
    simp [fileFeatures]
  · unfold extract_features
    exact List.map_congr_left (fun a _ => fileFeatures_eq_specVector a)

theorem extract_features_spec_witness :
    (∀ row ∈ extract_features [{ smells := ["s"] }], row.length = 12) ∧
    extract_features [{ smells := ["s"] }] = [{ smells := ["s"] }].map specVector :=
  extract_features_spec [{ smells := ["s"] }]

/-- C3: For every input batch of fewer than 3 metrics records (including
the empty batch), the anomaly detector returns an empty anomaly list rather
than an error (the guard fires before the model is consulted, so this holds
for every scaler/model behaviour). -/
theorem detect_anomalies_small_batch
    (scale : List (List ℚ) → List (List ℚ))
    (fitPredict : List (List ℚ) → List ℤ)
    (scoreSamples : List (List ℚ) → List ℚ)
    (nlp_analyses : List Analysis)
    (h : nlp_analyses.length < 3) :
    detect_anomalies scale fitPredict scoreSamples nlp_analyses = [] := by
  unfold detect_anomalies
  rw [if_pos h]

theorem detect_anomalies_small_batch_witness :
    ([({} : Analysis), {}] : List Analysis).length < 3 ∧
    detect_anomalies id (fun _ => []) (fun _ => []) [{}, {}] = [] :=
  ⟨by decide, detect_anomalies_small_batch id (fun _ => []) (fun _ => []) [{}, {}] (by decide)⟩

/-- C9: For an empty metrics batch (zero input files), the KPI computation
returns every category as an explicit empty/zero structure with
summary.overall_health_score = 0 and summary.grade = "N/A" (a sentinel
distinct from F), and the anomaly list is empty. -/
theorem calculate_kpis_empty_batch {ρ : Type} (repo_data : ρ)
    (commits : Option (List Commit)) (prs : Option (List PullRequest))
    (now : String)
    (scale : List (List ℚ) → List (List ℚ))
    (fitPredict : List (List ℚ) → List ℤ)
    (scoreSamples : List (List ℚ) → List ℚ) :
    calculate_kpis [] repo_data commits prs now = empty_kpis ∧
    empty_kpis.quality = none ∧
    empty_kpis.maintainability = none ∧
    empty_kpis.productivity = none ∧
    empty_kpis.security = none ∧
    empty_kpis.summary.overall_health_score = 0 ∧
    empty_kpis.summary.grade = "N/A" ∧
    empty_kpis.summary.grade ≠ "F" ∧
    empty_kpis.summary.analyzed_files = 0 ∧
    detect_anomalies scale fitPredict scoreSamples [] = [] := by
  refine ⟨rfl, rfl, rfl, rfl, rfl, rfl, rfl, by decide, rfl, ?_⟩
  exact detect_anomalies_small_batch _ _ _ [] (by simp)

/-- C10: For every non-empty metrics batch, if both the commit list and the
pull-request list are empty or absent, the productivity category is
returned with every field zero — in particular productivity_score = 0, so
the prScore = 50 no-PR default is not applied when there is no activity at
all. -/
theorem calculate_kpis_no_activity {ρ : Type} (repo_data : ρ)
    (nlp_analyses : List Analysis) (commits : Option (List Commit))
    (prs : Option (List PullRequest)) (now : String)
    (hne : nlp_analyses ≠ [])
    (hc : commits.getD [] = [])
    (hp : prs.getD [] = []) :
    (calculate_kpis nlp_analyses repo_data commits prs now).productivity =
      some { productivity_score := 0, commit_frequency := 0, pr_merge_rate := 0
             avg_pr_size := 0, active_contributors := 0 } := by
  unfold calculate_kpis
  rw [if_neg (by simpa [List.isEmpty_iff] using hne)]
  unfold calculate_productivity_kpis
  rw [if_pos (by simp [hc, hp])]

theorem calculate_kpis_no_activity_witness :
    (([({} : Analysis)] : List Analysis) ≠ [] ∧
      (none : Option (List Commit)).getD [] = [] ∧
      (some ([] : List PullRequest)).getD [] = []) ∧
    (calculate_kpis [({} : Analysis)] () none (some []) "t").productivity =
      some { productivity_score := 0, commit_frequency := 0, pr_merge_rate := 0
             avg_pr_size := 0, active_contributors := 0 } :=
  ⟨⟨by decide, rfl, rfl⟩,
   calculate_kpis_no_activity () [{}] none (some []) "t" (by decide) rfl rfl⟩

/-- C1: For an input of exactly 5 commit summaries all bearing the same
(non-empty) author name and an empty pull-request list, the productivity
KPI computation returns exactly commit_frequency 5, pr_merge_rate 0,
active_contributors 1, productivity_score 41.0 = 0.4×50 + 0.3×50 + 0.3×20,
following commitScore = min(100, commitCount/10×100), contributorScore =
min(100, contributorCount/5×100) and prScore = 50 when there are no PRs. -/
theorem productivity_five_commits_one_author (name : String) (commits : List Commit)
    (hname : name ≠ "") (hlen : commits.length = 5)
    (hauth : ∀ c ∈ commits, commitAuthorName c = some name) :
    calculate_productivity_kpis (some commits) (some []) =
      { productivity_score := 41, commit_frequency := 5, pr_merge_rate := 0
        avg_pr_size := 0, active_contributors := 1 } := by
  have hnil : commits ≠ [] := by
    intro h
    rw [h] at hlen
    simp at hlen
  have hcontrib :
      ((commits.filterMap commitAuthorName).filter (fun n => n ≠ "")).dedup = [name] := by
    rw [filterMap_const_some _ _ _ hauth, hlen,
      List.filter_eq_self.mpr (fun a ha => by
        rw [List.eq_of_mem_replicate ha]
        simpa using hname)]
    exact dedup_replicate_of_ne_zero name 5 (by decide)
  unfold calculate_productivity_kpis
  rw [if_neg (by simp [List.isEmpty_iff, hnil])]
  simp only [Option.getD_some, hcontrib, hlen]
  norm_num [pyRoundTo, pyRound, round_eq, min_def]

theorem productivity_five_commits_one_author_witness :
    (("User1" : String) ≠ "" ∧
      (List.replicate 5
        ({ commit := some { author := some { name := some "User1" } } } : Commit)).length = 5 ∧
      (∀ c ∈ List.replicate 5
        ({ commit := some { author := some { name := some "User1" } } } : Commit),
        commitAuthorName c = some "User1")) ∧
    calculate_productivity_kpis
      (some (List.replicate 5 { commit := some { author := some { name := some "User1" } } }))
      (some []) =
      { productivity_score := 41, commit_frequency := 5, pr_merge_rate := 0
        avg_pr_size := 0, active_contributors := 1 } :=
  ⟨⟨by decide, by decide, fun c hc => by rw [List.eq_of_mem_replicate hc]; rfl⟩,
   productivity_five_commits_one_author "User1" _ (by decide) (by decide)
     (fun c hc => by rw [List.eq_of_mem_replicate hc]; rfl)⟩

/-- C6: quality_score equals 0.4×complexitySubScore + 0.3×docSubScore +
0.3×smellSubScore with complexitySubScore = 100 when avgComplexity ≤ 5 else
100 − (avgComplexity−5)×10, docSubScore = min(100, commentRatio×300),
smellSubScore = 100 − smellDensity×5, each sub-score clamped to [0,100];
consequently quality_score ∈ [0,100].  (The comment ratio produced by the
extractor is non-negative, which the clamping phrasing presupposes.) -/
theorem quality_score_spec (avg_complexity comment_ratio smell_density : ℚ)
    (hr : 0 ≤ comment_ratio) :
    calculate_quality_score avg_complexity comment_ratio smell_density =
      specComplexitySubScore avg_complexity * 0.4 +
      specDocSubScore comment_ratio * 0.3 +
      specSmellSubScore smell_density * 0.3 ∧
    0 ≤ calculate_quality_score avg_complexity comment_ratio smell_density ∧
    calculate_quality_score avg_complexity comment_ratio smell_density ≤ 100 := by
  have hcs0 : (0:ℚ) ≤ specComplexitySubScore avg_complexity := le_max_left _ _
  have hds0 : (0:ℚ) ≤ specDocSubScore comment_ratio := le_max_left _ _
  have hss0 : (0:ℚ) ≤ specSmellSubScore smell_density := le_max_left _ _
  have hcs1 : specComplexitySubScore avg_complexity ≤ 100 :=
    max_le (by norm_num) (min_le_left _ _)
  have hds1 : specDocSubScore comment_ratio ≤ 100 :=
    max_le (by norm_num) (min_le_left _ _)
  have hss1 : specSmellSubScore smell_density ≤ 100 :=
    max_le (by norm_num) (min_le_left _ _)
  have clamp_absorb : ∀ x : ℚ, max 0 (min 100 (max 0 x)) = max 0 (min 100 x) := by
    intro x
    simp only [max_def, min_def]
    split_ifs <;> linarith
  have hcpx : max 0 (min 100
        (if avg_complexity > 5 then max 0 (100 - (avg_complexity - 5) * 10) else (100:ℚ))) =
      specComplexitySubScore avg_complexity := by
    unfold specComplexitySubScore clamp0_100
    rcases le_or_lt avg_complexity 5 with h | h
    · rw [if_neg (not_lt.mpr h), if_pos h]
    · rw [if_pos h, if_neg (not_le.mpr h)]
      exact clamp_absorb _
  have hdoc : min (100:ℚ) (comment_ratio * 300) = specDocSubScore comment_ratio := by
    unfold specDocSubScore clamp0_100
    rw [← min_assoc, min_self,
      max_eq_right (le_min (by norm_num) (mul_nonneg hr (by norm_num)))]
  have hsml : max (0:ℚ) (min 100 (max 0 (100 - smell_density * 5))) =
      specSmellSubScore smell_density := by
    unfold specSmellSubScore clamp0_100
    exact clamp_absorb _
  have heq : calculate_quality_score avg_complexity comment_ratio smell_density =
      specComplexitySubScore avg_complexity * 0.4 +
      specDocSubScore comment_ratio * 0.3 +
      specSmellSubScore smell_density * 0.3 := by
    unfold calculate_quality_score
    dsimp only
    rw [hcpx, hdoc, hsml]
  refine ⟨heq, ?_, ?_⟩ <;> rw [heq] <;> linarith

theorem quality_score_spec_witness :
    (0:ℚ) ≤ 1/10 ∧
    (calculate_quality_score 7 (1/10) 4 =
      specComplexitySubScore 7 * 0.4 + specDocSubScore (1/10) * 0.3 +
      specSmellSubScore 4 * 0.3 ∧
    0 ≤ calculate_quality_score 7 (1/10) 4 ∧
    calculate_quality_score 7 (1/10) 4 ≤ 100) :=
  ⟨by norm_num, quality_score_spec 7 (1/10) 4 (by norm_num)⟩

theorem smell_foldl_count (l : List String) (n : ℕ) :
    l.foldl (fun acc2 smell =>
      if smellHasSecurityKeyword smell then acc2 + 1 else acc2) n =
      n + l.countP smellHasSecurityKeyword := by
  induction l generalizing n with
  | nil => simp
  | cons s t ih =>
    simp only [List.foldl_cons, List.countP_cons, ih]
    by_cases h : smellHasSecurityKeyword s
    · simp [h]
      omega
    · simp [h]

theorem security_foldl_count (nlp_analyses : List Analysis) (n : ℕ) :
    nlp_analyses.foldl (fun acc a => a.smells.foldl (fun acc2 smell =>
      if smellHasSecurityKeyword smell then acc2 + 1 else acc2) acc) n =
      n + (nlp_analyses.map (fun a => a.smells)).flatten.countP smellHasSecurityKeyword := by
  induction nlp_analyses generalizing n with
  | nil => simp
  | cons a t ih =>
    simp only [List.foldl_cons, List.map_cons, List.flatten_cons, List.countP_append]
    rw [smell_foldl_count, ih]
    omega

theorem security_issue_count_eq (nlp_analyses : List Analysis) :
    (calculate_security_kpis nlp_analyses).security_issue_count =
      ((nlp_analyses.map (fun a => a.smells)).flatten.countP smellHasSecurityKeyword) := by
  unfold calculate_security_kpis
  dsimp only
  rw [security_foldl_count]
  omega

/-- C7: security_issue_count equals the number of smell strings containing
(case-insensitively) any of the keywords password, secret, token, api_key,
private_key; risk_score equals 10×securityIssues + 5×highComplexityFiles +
2×totalSmells clamped to [0,100] with highComplexityFiles the count of
files with maxComplexity > 15; and any batch containing a file with smell
"Hardcoded password found" has security_issue_count ≥ 1. -/
theorem security_kpis_spec (nlp_analyses : List Analysis) :
    (calculate_security_kpis nlp_analyses).security_issue_count =
      ((nlp_analyses.map (fun a => a.smells)).flatten.countP smellHasSecurityKeyword) ∧
    (calculate_security_kpis nlp_analyses).risk_score =
      min 100 ((calculate_security_kpis nlp_analyses).security_issue_count * 10 +
        (nlp_analyses.countP (fun a => a.metrics.max_complexity.getD 0 > 15)) * 5 +
        (nlp_analyses.map (fun a => a.smells.length)).sum * 2) ∧
    ((∃ a ∈ nlp_analyses, "Hardcoded password found" ∈ a.smells) →
      1 ≤ (calculate_security_kpis nlp_analyses).security_issue_count) := by
  refine ⟨security_issue_count_eq nlp_analyses, rfl, ?_⟩
  rintro ⟨a, ha, hsmell⟩
  rw [security_issue_count_eq nlp_analyses]
  have hmem : "Hardcoded password found" ∈ (nlp_analyses.map (fun a => a.smells)).flatten :=
    List.mem_flatten.mpr ⟨a.smells, List.mem_map_of_mem _ ha, hsmell⟩
  exact List.countP_pos_iff.mpr ⟨_, hmem, by decide⟩

theorem security_kpis_spec_witness :
    (calculate_security_kpis [{ smells := ["Hardcoded password found"] }]).security_issue_count =
      (([({ smells := ["Hardcoded password found"] } : Analysis)].map
        (fun a => a.smells)).flatten.countP smellHasSecurityKeyword) ∧
    (calculate_security_kpis [{ smells := ["Hardcoded password found"] }]).risk_score =
      min 100 ((calculate_security_kpis
          [{ smells := ["Hardcoded password found"] }]).security_issue_count * 10 +
        ([({ smells := ["Hardcoded password found"] } : Analysis)].countP
          (fun a => a.metrics.max_complexity.getD 0 > 15)) * 5 +
        ([({ smells := ["Hardcoded password found"] } : Analysis)].map
          (fun a => a.smells.length)).sum * 2) ∧
    ((∃ a ∈ [({ smells := ["Hardcoded password found"] } : Analysis)],
        "Hardcoded password found" ∈ a.smells) →
      1 ≤ (calculate_security_kpis
        [{ smells := ["Hardcoded password found"] }]).security_issue_count) :=
  security_kpis_spec [{ smells := ["Hardcoded password found"] }]

/-- C8: For every filename whose extension is not a supported code
extension and every content string, the metrics extractor returns
successfully (it is a total function that takes the early-return branch)
with a near-empty record in which every numeric metric field is absent and
therefore reads as 0 (its feature vector is the all-zero 12-vector), and
this record is still included in the batch handed to the downstream
components. -/
theorem analyze_unsupported_extension (analyzeSupported : String → String → Analysis)
    (files : List (String × String)) (filename content : String)
    (hext : fileExt filename ∉ code_extensions)
    (hmem : (filename, content) ∈ files) :
    analyze_code_file analyzeSupported filename content = emptyAnalysis filename ∧
    (emptyAnalysis filename).metrics = {} ∧
    fileFeatures (emptyAnalysis filename) = List.replicate 12 0 ∧
    emptyAnalysis filename ∈ buildBatch analyzeSupported files := by
  have h1 : analyze_code_file analyzeSupported filename content = emptyAnalysis filename := by
    unfold analyze_code_file
    rw [if_pos hext]
  refine ⟨h1, rfl, by norm_num [fileFeatures, emptyAnalysis, List.replicate], ?_⟩
  rw [← h1]
  exact List.mem_map.mpr ⟨(filename, content), hmem, rfl⟩

theorem analyze_unsupported_extension_witness :
    (fileExt "README.md" ∉ code_extensions ∧
      ("README.md", "docs") ∈ [("README.md", "docs")]) ∧
    (analyze_code_file (fun _ _ => {}) "README.md" "docs" = emptyAnalysis "README.md" ∧
      (emptyAnalysis "README.md").metrics = {} ∧
      fileFeatures (emptyAnalysis "README.md") = List.replicate 12 0 ∧
      emptyAnalysis "README.md" ∈ buildBatch (fun _ _ => {}) [("README.md", "docs")]) :=
  ⟨⟨by decide, by decide⟩,
   analyze_unsupported_extension (fun _ _ => {}) [("README.md", "docs")] "README.md" "docs"
     (by decide) (by decide)⟩

/-- C4: For every input batch (and any behaviour of the external scaler and
isolation-forest model), every anomaly report the detector returns has an
integer normalized score in [0,100] (clamped), and the returned list is
sorted by that score in descending order (most anomalous first). -/
theorem detect_anomalies_scores_sorted
    (scale : List (List ℚ) → List (List ℚ))
    (fitPredict : List (List ℚ) → List ℤ)
    (scoreSamples : List (List ℚ) → List ℚ)
    (nlp_analyses : List Analysis) :
    (∀ rep ∈ detect_anomalies scale fitPredict scoreSamples nlp_analyses,
      0 ≤ rep.score ∧ rep.score ≤ 100) ∧
    (detect_anomalies scale fitPredict scoreSamples nlp_analyses).Pairwise
      (fun a b => b.score ≤ a.score) := by
  unfold detect_anomalies
  split_ifs with h
  · simp
  · constructor
    · intro rep hrep
      have hmem := (List.perm_insertionSort scoreOrder _).mem_iff.mp hrep
      rcases List.mem_filterMap.mp hmem with ⟨pe, _, hpe⟩
      by_cases hneg : pe.2.1 = -1
      · rw [if_pos hneg, Option.some.injEq] at hpe
        subst hpe
        unfold create_anomaly_report
        dsimp only
        exact ⟨le_max_left _ _, max_le (by norm_num) (min_le_left _ _)⟩
      · rw [if_neg hneg] at hpe
        exact absurd hpe (Option.noConfusion)
    · exact (List.sorted_insertionSort scoreOrder _).imp (fun hab => hab)

theorem detect_anomalies_scores_sorted_witness :
    (∀ rep ∈ detect_anomalies id (fun _ => [-1, -1, -1]) (fun _ => [0, 1, -1])
        [{ smells := ["a"] }, {}, { filename := some "f" }],
      0 ≤ rep.score ∧ rep.score ≤ 100) ∧
    (detect_anomalies id (fun _ => [-1, -1, -1]) (fun _ => [0, 1, -1])
        [{ smells := ["a"] }, {}, { filename := some "f" }]).Pairwise
      (fun a b => b.score ≤ a.score) :=
  detect_anomalies_scores_sorted id (fun _ => [-1, -1, -1]) (fun _ => [0, 1, -1])
    [{ smells := ["a"] }, {}, { filename := some "f" }]

theorem tagStep_append (st : List String × List String) (e : String × ℚ × ℚ × ℚ) :
    tagStep st e = (st.1 ++ (tagEmit e).1, st.2 ++ (tagEmit e).2) := by
  rcases st with ⟨A, B⟩
  rcases e with ⟨name, v, m, s⟩
  unfold tagEmit tagStep
  dsimp only
  split_ifs <;> simp

theorem foldl_tagStep (l : List (String × ℚ × ℚ × ℚ)) (A B : List String) :
    l.foldl tagStep (A, B) =
      (A ++ (l.map (fun e => (tagEmit e).1)).flatten,
       B ++ (l.map (fun e => (tagEmit e).2)).flatten) := by
  induction l generalizing A B with
  | nil => simp
  | cons e t ih =>
    rw [List.foldl_cons, tagStep_append]
    rw [ih]
    simp [List.append_assoc]

theorem tagEmit_avg_complexity (v m s : ℚ) :
    tagEmit ("avg_complexity", v, m, s) =
      (if zCrossing v m s ∧ v > m
       then (["complexity"], [highComplexityReason v m]) else ([], [])) := by
  by_cases hz : zCrossing v m s <;> by_cases hd : v > m <;>
    simp [tagEmit, tagStep, hz, hd]

theorem tagEmit_total_lines (v m s : ℚ) :
    tagEmit ("total_lines", v, m, s) =
      (if zCrossing v m s ∧ v > m
       then (["size"], [largeFileReason v m]) else ([], [])) := by
  by_cases hz : zCrossing v m s <;> by_cases hd : v > m <;>
    simp [tagEmit, tagStep, hz, hd]

theorem tagEmit_comment_ratio (v m s : ℚ) :
    tagEmit ("comment_ratio", v, m, s) =
      (if zCrossing v m s ∧ v < m
       then (["documentation"], [lowDocReason v m]) else ([], [])) := by
  by_cases hz : zCrossing v m s <;> by_cases hd : v < m <;>
    simp [tagEmit, tagStep, hz, hd]

theorem tagEmit_naming_consistency (v m s : ℚ) :
    tagEmit ("naming_consistency", v, m, s) =
      (if zCrossing v m s ∧ v < m
       then (["naming"], [inconsistentNamingReason v m]) else ([], [])) := by
  by_cases hz : zCrossing v m s <;> by_cases hd : v < m <;>
    simp [tagEmit, tagStep, hz, hd]

theorem tagEmit_smell_count (v m s : ℚ) :
    tagEmit ("smell_count", v, m, s) =
      (if zCrossing v m s ∧ v > m
       then (["code_smells"], [multipleSmellsReason v]) else ([], [])) := by
  by_cases hz : zCrossing v m s <;> by_cases hd : v > m <;>
    simp [tagEmit, tagStep, hz, hd]

theorem tagEmit_non_empty_lines (v m s : ℚ) :
    tagEmit ("non_empty_lines", v, m, s) = ([], []) := by
  by_cases hz : zCrossing v m s <;> simp [tagEmit, tagStep, hz]

theorem tagEmit_comment_lines (v m s : ℚ) :
    tagEmit ("comment_lines", v, m, s) = ([], []) := by
  by_cases hz : zCrossing v m s <;> simp [tagEmit, tagStep, hz]

theorem tagEmit_max_complexity (v m s : ℚ) :
    tagEmit ("max_complexity", v, m, s) = ([], []) := by
  by_cases hz : zCrossing v m s <;> simp [tagEmit, tagStep, hz]

theorem tagEmit_maintainability_index (v m s : ℚ) :
    tagEmit ("maintainability_index", v, m, s) = ([], []) := by
  by_cases hz : zCrossing v m s <;> simp [tagEmit, tagStep, hz]

theorem tagEmit_halstead_difficulty (v m s : ℚ) :
    tagEmit ("halstead_difficulty", v, m, s) = ([], []) := by
  by_cases hz : zCrossing v m s <;> simp [tagEmit, tagStep, hz]

theorem tagEmit_vocabulary_richness (v m s : ℚ) :
    tagEmit ("vocabulary_richness", v, m, s) = ([], []) := by
  by_cases hz : zCrossing v m s <;> simp [tagEmit, tagStep, hz]

theorem tagEmit_comment_meaningfulness (v m s : ℚ) :
    tagEmit ("comment_meaningfulness", v, m, s) = ([], []) := by
  by_cases hz : zCrossing v m s <;> simp [tagEmit, tagStep, hz]

theorem ite_singleton_eq_nil {α : Type} (C : Prop) [Decidable C] (a : α) :
    ((if C then [a] else []) = [] ) ↔ ¬C := by
  split_ifs with h <;> simp [h]

theorem exists_twelve {α : Type} (l : List α) (h : l.length = 12) :
    ∃ a0 a1 a2 a3 a4 a5 a6 a7 a8 a9 a10 a11,
      l = [a0, a1, a2, a3, a4, a5, a6, a7, a8, a9, a10, a11] := by
  rcases l with _ | ⟨a0, _ | ⟨a1, _ | ⟨a2, _ | ⟨a3, _ | ⟨a4, _ | ⟨a5, _ | ⟨a6, _ | ⟨a7,
    _ | ⟨a8, _ | ⟨a9, _ | ⟨a10, _ | ⟨a11, _ | ⟨a12, rest⟩⟩⟩⟩⟩⟩⟩⟩⟩⟩⟩⟩⟩ <;>
    first
      | exact ⟨_, _, _, _, _, _, _, _, _, _, _, _, rfl⟩
      | (simp only [List.length_cons, List.length_nil] at h; omega)

theorem fst_ite {α β : Type} (C : Prop) [Decidable C] (p q : α × β) :
    (if C then p else q).1 = if C then p.1 else q.1 := by
  split_ifs <;> rfl

theorem snd_ite {α β : Type} (C : Prop) [Decidable C] (p q : α × β) :
    (if C then p else q).2 = if C then p.2 else q.2 := by
  split_ifs <;> rfl

set_option maxHeartbeats 1000000 in
theorem attribution_fold_spec (ff M V : List ℚ)
    (hf : ff.length = 12) (hM : M.length = 12) (hV : V.length = 12) :
    ((feature_names.zip (ff.zip (M.zip V))).foldl tagStep ([], [])).1 =
      specCategories ff M V ∧
    (specCategories ff M V = [] →
      ((feature_names.zip (ff.zip (M.zip V))).foldl tagStep ([], [])).2 = []) := by
  obtain ⟨a0,a1,a2,a3,a4,a5,a6,a7,a8,a9,a10,a11, rfl⟩ := exists_twelve ff hf
  obtain ⟨m0,m1,m2,m3,m4,m5,m6,m7,m8,m9,m10,m11, rfl⟩ := exists_twelve M hM
  obtain ⟨v0,v1,v2,v3,v4,v5,v6,v7,v8,v9,v10,v11, rfl⟩ := exists_twelve V hV
  simp only [feature_names, specCategories, List.zip_cons_cons, List.zip_nil_right,
    List.zip_nil_left, foldl_tagStep, List.map_cons, List.map_nil,
    tagEmit_total_lines, tagEmit_non_empty_lines,
    tagEmit_comment_lines, tagEmit_comment_ratio, tagEmit_avg_complexity,
    tagEmit_max_complexity, tagEmit_maintainability_index,
    tagEmit_halstead_difficulty, tagEmit_smell_count, tagEmit_naming_consistency,
    tagEmit_vocabulary_richness, tagEmit_comment_meaningfulness,
    fst_ite, snd_ite, List.flatten_cons, List.flatten_nil,
    List.getD_cons_zero, List.getD_cons_succ,
    List.append_nil, List.nil_append]
  constructor
  · simp [List.append_assoc]
  · intro h
    simp only [List.append_eq_nil, ite_singleton_eq_nil] at h
    obtain ⟨⟨⟨⟨h0, h3⟩, h4⟩, h8⟩, h9⟩ := h
    simp [h0, h3, h4, h8, h9]

/-- C5: For every file classified anomalous, its category tags are exactly
those dimensions of the 12 whose batch z-score exceeds |z| > 2 under the
directional rules (avgComplexity above mean → complexity, totalLines above
mean → size, commentRatio below mean → documentation, namingConsistency
below mean → naming, smellCount above mean → code_smells, in the loop's
dimension order); and when no dimension crosses the threshold under those
rules the file is tagged 'general' with the generic statistical-outlier
description.  Hypotheses: an anomalous file's feature row has 12 entries
and the batch matrix it is judged against is non-empty with 12-entry rows,
which `detect_anomalies` guarantees for every report it creates. -/
theorem anomaly_attribution_spec (analysis : Analysis) (file_features : List ℚ)
    (anomaly_score : ℚ) (all_features : List (List ℚ))
    (h12 : file_features.length = 12)
    (hrows : ∀ r ∈ all_features, r.length = 12)
    (hne : all_features ≠ []) :
    (create_anomaly_report analysis file_features anomaly_score all_features).types =
      (if specCategories file_features (colMeans all_features) (colVars all_features) = []
       then ["general"]
       else specCategories file_features (colMeans all_features) (colVars all_features)) ∧
    (specCategories file_features (colMeans all_features) (colVars all_features) = [] →
      (create_anomaly_report analysis file_features anomaly_score all_features).description =
        "Statistical outlier in code metrics") := by
  have hc : colCount all_features = 12 := by
    rcases all_features with _ | ⟨r0, rest⟩
    · exact absurd rfl hne
    · simpa [colCount] using hrows r0 (by simp)
  have hM : (colMeans all_features).length = 12 := by simp [colMeans, hc]
  have hV : (colVars all_features).length = 12 := by simp [colVars, hc]
  have key := attribution_fold_spec file_features (colMeans all_features)
    (colVars all_features) h12 hM hV
  constructor
  · unfold create_anomaly_report attributionEntries
    dsimp only
    unfold attributionEntries at key
    rw [key.1]
  · intro hcat
    unfold create_anomaly_report attributionEntries
    dsimp only
    unfold attributionEntries at key
    rw [key.2 hcat]
    simp

theorem anomaly_attribution_spec_witness :
    ((List.replicate 12 (0:ℚ)).length = 12 ∧
      (∀ r ∈ [List.replicate 12 (0:ℚ)], r.length = 12) ∧
      ([List.replicate 12 (0:ℚ)] : List (List ℚ)) ≠ []) ∧
    ((create_anomaly_report {} (List.replicate 12 0) 0 [List.replicate 12 0]).types =
      (if specCategories (List.replicate 12 0) (colMeans [List.replicate 12 0])
            (colVars [List.replicate 12 0]) = []
       then ["general"]
       else specCategories (List.replicate 12 0) (colMeans [List.replicate 12 0])
            (colVars [List.replicate 12 0])) ∧
     (specCategories (List.replicate 12 0) (colMeans [List.replicate 12 0])
          (colVars [List.replicate 12 0]) = [] →
        (create_anomaly_report {} (List.replicate 12 0) 0
          [List.replicate 12 0]).description = "Statistical outlier in code metrics")) :=
  ⟨⟨by decide, fun r hr => by
      simp only [List.mem_singleton] at hr
      subst hr
      decide, by decide⟩,
   anomaly_attribution_spec {} (List.replicate 12 0) 0 [List.replicate 12 0]
     (by decide)
     (fun r hr => by
       simp only [List.mem_singleton] at hr
       subst hr
       decide)
     (by decide)⟩
